import Mathlib

/-!
Verification of the bulk asset-import pipeline (`backend/import_patrimonio.py`
and `backend/validators.py`) of the `patp` repository.

The Python code is shallowly embedded: spreadsheet cell values become the
inductive `PyVal` (the value shapes the pipeline actually handles: `None`,
strings, ints and dates), Python `str` operations are re-implemented as
structural functions on `List Char` so every definition evaluates inside the
kernel, `decimal.Decimal` is embedded as an exact mantissa/exponent pair,
Python dictionaries become association lists whose most recent binding is at
the head (so lookup-first equals Python's later-assignment-wins), and
functions that can raise become `Except String`-valued functions.  Database
access is embedded as explicit state passing over a `Store` value; the points
at which the database layer may raise are given by explicit oracles
(`FetchPlan` for the bulk reads of `_carregar_caches`, `FailPlan` for the
row-level INSERTs), mirroring the `try/except` structure of the source.
-/

deriving instance DecidableEq for Except

namespace Patp

/-! ## Python string primitives (structural re-implementations) -/

/-- Characters stripped by Python `str.strip()` on the inputs handled by the
pipeline (ASCII whitespace). -/
def pySpace (c : Char) : Bool :=
  c = ' ' || c = '\t' || c = '\n' || c = '\r' || c = '\x0b' || c = '\x0c'

/-- Python `str.strip()`. -/
def pyStrip (s : String) : String :=
  String.mk (((s.data.dropWhile pySpace).reverse.dropWhile pySpace).reverse)

/-- Python `str.lower()` (ASCII case folding; the pipeline's enumerations and
column names are ASCII). -/
def pyLower (s : String) : String :=
  String.mk (s.data.map Char.toLower)

/-- Python `re.sub(r'[^0-9]', '', s)`: keep only the decimal digits. -/
def soDigitos (s : String) : String :=
  String.mk (s.data.filter Char.isDigit)

/-- One replacement pass of Python `str.replace` on character lists,
left-to-right and non-overlapping, with a fuel argument so the recursion is
structural (fuel `cs.length` never runs out when the pattern is non-empty). -/
def replaceFuel (pat rep : List Char) : Nat → List Char → List Char
  | _, [] => []
  | 0, cs => cs
  | fuel + 1, c :: rest =>
    if pat ≠ [] && pat.isPrefixOf (c :: rest) then
      rep ++ replaceFuel pat rep fuel ((c :: rest).drop pat.length)
    else
      c :: replaceFuel pat rep fuel rest

/-- Python `s.replace(pat, rep)` (for the non-empty patterns used by the
source: `"R$"`, `" "`, `"."`, `","`). -/
def pyReplace (s pat rep : String) : String :=
  String.mk (replaceFuel pat.data rep.data s.data.length s.data)

/-- Split a character list at every occurrence of `sep` (used to embed both
the e-mail regex and `strptime` on `/`- and `-`-separated dates). -/
def splitOnCharAux (sep : Char) : List Char → List Char → List (List Char)
  | [], acc => [acc.reverse]
  | c :: rest, acc =>
    if c = sep then acc.reverse :: splitOnCharAux sep rest []
    else splitOnCharAux sep rest (c :: acc)

def splitOnChar (sep : Char) (s : String) : List String :=
  (splitOnCharAux sep s.data []).map String.mk

/-- Numeric value of a digit string (callers have checked `Char.isDigit`). -/
def digitsToNat (cs : List Char) : Nat :=
  cs.foldl (fun a c => a * 10 + (c.toNat - 48)) 0

/-- Python `int(s)` on an already-stripped string: optional sign followed by
at least one digit; anything else raises (`Option.none`). -/
def intOfString (s : String) : Option Int :=
  match s.data with
  | '-' :: ds => if ds ≠ [] && ds.all Char.isDigit then some (-(digitsToNat ds : Int)) else none
  | '+' :: ds => if ds ≠ [] && ds.all Char.isDigit then some ((digitsToNat ds : Int)) else none
  | ds => if ds ≠ [] && ds.all Char.isDigit then some ((digitsToNat ds : Int)) else none

/-! ## Python values -/

/-- Calendar date, as produced by `datetime.date`. -/
structure PyDate where
  year : Nat
  month : Nat
  day : Nat
deriving DecidableEq

/-- Left-pad a numeral with zeros (for `str(date)`). -/
def padNum (width n : Nat) : String :=
  let s := toString n
  String.mk (List.replicate (width - s.data.length) '0') ++ s

/-- The Python values that reach the import pipeline from a spreadsheet cell:
`None`, a string, an int, or a date. -/
inductive PyVal where
  | none
  | str (s : String)
  | int (n : Int)
  | date (d : PyDate)
deriving DecidableEq

/-- Python truthiness (`bool(v)`) for the embedded value shapes. -/
def pyTruthy : PyVal → Bool
  | .none => false
  | .str s => s ≠ ""
  | .int n => n ≠ 0
  | .date _ => true

/-- Python `str(v)` for the embedded value shapes (`str(None) = "None"`,
`str(date) = "YYYY-MM-DD"`). -/
def pyStr : PyVal → String
  | .none => "None"
  | .str s => s
  | .int n => toString n
  | .date d => padNum 4 d.year ++ "-" ++ padNum 2 d.month ++ "-" ++ padNum 2 d.day

/-- Python truthiness of an `Optional[str]` (`None` and `""` are falsy). -/
def optTruthy (o : Option String) : Bool :=
  o.getD "" ≠ ""

/-- Python truthiness of a two-element tuple such as the `(bool, message)`
pairs returned by the field validators: a non-empty tuple is always truthy,
regardless of its contents. -/
def pyTruthyPair (_ : Bool × String) : Bool :=
  true

/-! ## `backend/validators.py` -/

/-- Character class `[a-zA-Z0-9._%+-]` of the e-mail pattern's local part. -/
def emailLocalChar (c : Char) : Bool :=
  c.isAlpha || c.isDigit || c = '.' || c = '_' || c = '%' || c = '+' || c = '-'

/-- Character class `[a-zA-Z0-9.-]` of the e-mail pattern's domain part. -/
def emailDomainChar (c : Char) : Bool :=
  c.isAlpha || c.isDigit || c = '.' || c = '-'

/-- Does the part after `@` match `[a-zA-Z0-9.-]+\.[a-zA-Z]{2,}`?  With
backtracking this holds exactly when the string splits at some dot into a
non-empty prefix over the domain class and an all-letter suffix of length at
least 2. -/
def emailDomainOk (d : String) : Bool :=
  let cs := d.data
  (List.range cs.length).any fun i =>
    decide (0 < i) && decide (cs.getD i ' ' = '.') &&
      (cs.take i).all emailDomainChar &&
      decide (2 ≤ (cs.drop (i + 1)).length) && (cs.drop (i + 1)).all Char.isAlpha

/-- Full match of `^[a-zA-Z0-9._%+-]+@[a-zA-Z0-9.-]+\.[a-zA-Z]{2,}$`.
Neither character class contains `@`, so a match forces exactly one `@`. -/
def emailPatternMatch (s : String) : Bool :=
  match splitOnChar '@' s with
  | [loc, dom] => loc ≠ "" && loc.data.all emailLocalChar && emailDomainOk dom
  | _ => false

/-- `validar_email` from `backend/validators.py`: returns a
`(valid, error-message)` pair. -/
def validar_email (email : String) : Bool × String :=
  if email = "" || pyStrip email = "" then
    (false, "O e-mail não pode estar vazio.")
  else
    let e := pyStrip email
    if !emailPatternMatch e then
      (false, "Informe um e-mail válido.")
    else if (e.data.filter (· = '@')).length ≠ 1 then
      (false, "Informe um e-mail válido.")
    else
      (true, "")

/-- Check-digit computation of `validar_cnpj`: weighted digit sum mod 11. -/
def calcular_digito (ds pesos : List Nat) : Nat :=
  let soma := (ds.zip pesos).foldl (fun a p => a + p.1 * p.2) 0
  let resto := soma % 11
  if resto < 2 then 0 else 11 - resto

def pesos1 : List Nat := [5, 4, 3, 2, 9, 8, 7, 6, 5, 4, 3, 2]

def pesos2 : List Nat := [6, 5, 4, 3, 2, 9, 8, 7, 6, 5, 4, 3, 2]

/-- `validar_cnpj` from `backend/validators.py`. -/
def validar_cnpj (cnpj : String) : Bool × String :=
  if cnpj = "" || pyStrip cnpj = "" then
    (false, "O CNPJ não pode estar vazio.")
  else
    let limpo := (soDigitos cnpj).data
    if limpo.length ≠ 14 then
      (false, "CNPJ inválido. Verifique se digitou os 14 dígitos corretamente.")
    else
      match limpo with
      | [] => (false, "CNPJ inválido.")  -- unreachable: the length is 14
      | c :: rest =>
        if rest.all (· = c) then
          (false, "CNPJ inválido.")
        else
          let ds := limpo.map (fun d => d.toNat - 48)
          let digito1 := calcular_digito (ds.take 12) pesos1
          if ds.getD 12 0 ≠ digito1 then
            (false, "CNPJ inválido. Dígito verificador incorreto.")
          else
            let digito2 := calcular_digito (ds.take 13) pesos2
            if ds.getD 13 0 ≠ digito2 then
              (false, "CNPJ inválido. Dígito verificador incorreto.")
            else
              (true, "")

/-- `validar_telefone` from `backend/validators.py`: 10 or 11 digits after
stripping non-digits. -/
def validar_telefone (telefone : String) : Bool × String :=
  if telefone = "" || pyStrip telefone = "" then
    (false, "O telefone não pode estar vazio.")
  else
    let limpo := (soDigitos telefone).data
    if limpo.length < 10 || 11 < limpo.length then
      (false, "Telefone inválido. Informe apenas números com DDD (10 ou 11 dígitos).")
    else
      (true, "")

/-! ## `decimal.Decimal`, `_parse_data`, `_parse_decimal`, `_parse_int` -/

/-- Exact embedding of the `decimal.Decimal` values produced by the import:
the represented number is `man / 10 ^ exp`. -/
structure PyDecimal where
  man : Int
  exp : Nat
deriving DecidableEq

/-- Numeric value of a `PyDecimal`, for relating it to rational literals. -/
def PyDecimal.toRat (d : PyDecimal) : Rat :=
  (d.man : Rat) / 10 ^ d.exp

/-- Unsigned part of the `Decimal` string constructor: `digits [. digits]`
with at least one digit; returns the digit value and the number of fraction
digits.  (Scientific-notation, `NaN` and `Infinity` forms of the constructor
are not produced by the pipeline's cleaning step and are not modelled.) -/
def decimalDigitsParse (cs : List Char) : Option (Nat × Nat) :=
  let ip := cs.takeWhile Char.isDigit
  let rest := cs.dropWhile Char.isDigit
  match rest with
  | [] => if ip = [] then none else some (digitsToNat ip, 0)
  | '.' :: fp =>
    if fp.all Char.isDigit && (ip ≠ [] || fp ≠ []) then
      some (digitsToNat (ip ++ fp), fp.length)
    else none
  | _ => none

/-- Python `Decimal(s)` on an already-stripped string: optional sign followed
by a decimal digit string; any other form raises (`Option.none`). -/
def decimalOfString (s : String) : Option PyDecimal :=
  match s.data with
  | '-' :: cs => (decimalDigitsParse cs).map fun p => ⟨-(p.1 : Int), p.2⟩
  | '+' :: cs => (decimalDigitsParse cs).map fun p => ⟨(p.1 : Int), p.2⟩
  | cs => (decimalDigitsParse cs).map fun p => ⟨(p.1 : Int), p.2⟩

/-- Days per month, with leap years, as enforced by `datetime.date`. -/
def diasNoMes (y m : Nat) : Nat :=
  if m = 2 then
    if (y % 4 = 0 && y % 100 ≠ 0) || y % 400 = 0 then 29 else 28
  else if m = 4 || m = 6 || m = 9 || m = 11 then 30
  else 31

/-- `datetime.date(y, m, d)`: raises (`Option.none`) outside the valid
calendar range. -/
def mkPyDate (y m d : Nat) : Option PyDate :=
  if 1 ≤ y && y ≤ 9999 && 1 ≤ m && m ≤ 12 && 1 ≤ d && d ≤ diasNoMes y m then
    some ⟨y, m, d⟩
  else none

/-- `strptime` `%d`/`%m` directive: one or two digits (value range is checked
by `mkPyDate`). -/
def dig12 (s : String) : Bool :=
  s.data ≠ [] && s.data.length ≤ 2 && s.data.all Char.isDigit

/-- `strptime` `%Y` directive: exactly four digits. -/
def dig4 (s : String) : Bool :=
  s.data.length = 4 && s.data.all Char.isDigit

/-- `strptime` `%y` directive: exactly two digits. -/
def dig2 (s : String) : Bool :=
  s.data.length = 2 && s.data.all Char.isDigit

/-- `strptime(s, "%d/%m/%Y")` followed by `.date()`. -/
def tryDMY4slash (s : String) : Option PyDate :=
  match splitOnChar '/' s with
  | [d, m, y] =>
    if dig12 d && dig12 m && dig4 y then
      mkPyDate (digitsToNat y.data) (digitsToNat m.data) (digitsToNat d.data)
    else none
  | _ => none

/-- `strptime(s, "%Y-%m-%d")` followed by `.date()`. -/
def tryYMDdash (s : String) : Option PyDate :=
  match splitOnChar '-' s with
  | [y, m, d] =>
    if dig4 y && dig12 m && dig12 d then
      mkPyDate (digitsToNat y.data) (digitsToNat m.data) (digitsToNat d.data)
    else none
  | _ => none

/-- `strptime(s, "%d-%m-%Y")` followed by `.date()`. -/
def tryDMY4dash (s : String) : Option PyDate :=
  match splitOnChar '-' s with
  | [d, m, y] =>
    if dig12 d && dig12 m && dig4 y then
      mkPyDate (digitsToNat y.data) (digitsToNat m.data) (digitsToNat d.data)
    else none
  | _ => none

/-- `strptime(s, "%d/%m/%y")` followed by `.date()`: two-digit years `00–68`
map to `2000–2068`, `69–99` to `1969–1999`. -/
def tryDMY2slash (s : String) : Option PyDate :=
  match splitOnChar '/' s with
  | [d, m, y] =>
    if dig12 d && dig12 m && dig2 y then
      let yy := digitsToNat y.data
      mkPyDate (if yy ≤ 68 then 2000 + yy else 1900 + yy) (digitsToNat m.data)
        (digitsToNat d.data)
    else none
  | _ => none

/-- The four accepted string formats of `_parse_data`, tried in source
order. -/
def parseDataStr (s : String) : Option PyDate :=
  (tryDMY4slash s).orElse fun _ =>
    (tryYMDdash s).orElse fun _ =>
      (tryDMY4dash s).orElse fun _ => tryDMY2slash s

/-- `PatrimonioImporter._parse_data`. -/
def parse_data : PyVal → Option PyDate
  | .none => none
  | .date d => some d
  | .str s => if s = "" then none else parseDataStr (pyStrip s)
  | .int n => parseDataStr (pyStrip (pyStr (.int n)))

/-- The string-cleaning pipeline of `_parse_decimal`: strip, drop the `R$`
currency marker and spaces, drop `.` thousands separators, turn the `,`
decimal separator into `.`. -/
def limparValor (s : String) : String :=
  pyReplace (pyReplace (pyReplace (pyReplace (pyStrip s) "R$" "") " " "") "." "") "," "."

/-- `PatrimonioImporter._parse_decimal`. -/
def parse_decimal : PyVal → Option PyDecimal
  | .none => none
  | .int n => some ⟨n, 0⟩
  | .str s => if s = "" then none else decimalOfString (limparValor s)
  | .date d => decimalOfString (limparValor (pyStr (.date d)))

/-- `PatrimonioImporter._parse_int`: an unparsable value falls back to `1`
(the bare `except: return 1`). -/
def parse_int : PyVal → Int
  | .int n => n
  | v => (intOfString (pyStrip (pyStr v))).getD 1

/-! ## Raw rows and `_validar_linha` -/

/-- One surviving spreadsheet row: the `_linha` tag plus the cell dictionary
(most recent binding first, mirroring Python dict assignment order). -/
structure RawRow where
  linha : Nat
  cells : List (String × PyVal)
deriving DecidableEq

/-- Python `row.get(k, dflt)`. -/
def rowGet (r : RawRow) (k : String) (dflt : PyVal) : PyVal :=
  match r.cells.find? (fun kv => kv.1 = k) with
  | some kv => kv.2
  | none => dflt

/-- Python `str(v).strip() or None`: blank optional fields become absent. -/
def strOrNone (v : PyVal) : Option String :=
  let s := pyStrip (pyStr v)
  if s = "" then none else some s

/-- `PatrimonioImporter.VALID_STATUS`. -/
def VALID_STATUS : List String := ["ativo", "baixado", "em_manutencao", "desaparecido"]

/-- `PatrimonioImporter.VALID_ESTADOS`. -/
def VALID_ESTADOS : List String := ["novo", "bom", "regular", "ruim"]

/-- Python `", ".join(xs)`. -/
def joinComma : List String → String
  | [] => ""
  | [s] => s
  | s :: rest => s ++ ", " ++ joinComma rest

/-- A validated spreadsheet line (`PatrimonioImportRow` dataclass). -/
structure PatrimonioImportRow where
  linha : Nat
  nome : String
  descricao : Option String
  numero_serie : Option String
  data_aquisicao : PyDate
  valor_compra : PyDecimal
  quantidade : Int
  numero_nota : Option String
  estado_conservacao : String
  categoria : String
  fornecedor_nome : String
  fornecedor_cnpj : Option String
  fornecedor_telefone : Option String
  fornecedor_email : Option String
  setor_local : String
  status : String
  fornecedor_inscricao : Option String := none
  fornecedor_contato : Option String := none
  fornecedor_observacoes : Option String := none
deriving DecidableEq

/-- First raised error of an ordered list of `(condition, message)` checks:
the guarded `raise ValueError` sequence of `_validar_linha` as data. -/
def firstErro : List (Bool × String) → Option String
  | [] => none
  | c :: rest => if c.1 then some c.2 else firstErro rest

/-- The guard sequence of `_validar_linha`, in the source's raising order.
Every guard recomputes its field from the raw row (all field computations
are pure, so this matches the source's local bindings).  Note the
CNPJ/phone/e-mail guards: the source tests `fornecedor_x and not
validar_x(...)`, and since the validators return a `(bool, message)` tuple —
a non-empty tuple, hence always truthy — `not validar_x(...)` is always
`False` and these three guards can never fire.  `pyTruthyPair` embeds
exactly that. -/
def checks (row : RawRow) : List (Bool × String) :=
  [(pyStrip (pyStr (rowGet row "nome" (.str ""))) = "",
      "Nome é obrigatório"),
   ((parse_data (rowGet row "data_aquisicao" .none)).isNone,
      "Data de aquisição inválida ou ausente"),
   ((parse_decimal (rowGet row "valor_compra" .none)).isNone,
      "Valor de compra inválido ou ausente"),
   (((parse_decimal (rowGet row "valor_compra" .none)).getD ⟨0, 0⟩).man < 0,
      "Valor de compra inválido ou ausente"),
   (parse_int (rowGet row "quantidade" (.int 1)) ≤ 0,
      "Quantidade deve ser maior que zero"),
   (pyStrip (pyStr (rowGet row "categoria" (.str ""))) = "",
      "Categoria é obrigatória"),
   (pyStrip (pyStr (rowGet row "fornecedor_nome" (.str ""))) = "",
      "Nome do fornecedor é obrigatório"),
   (optTruthy (strOrNone (rowGet row "fornecedor_cnpj" (.str "")))
      && !pyTruthyPair (validar_cnpj ((strOrNone (rowGet row "fornecedor_cnpj" (.str ""))).getD "")),
      "CNPJ inválido: " ++ (strOrNone (rowGet row "fornecedor_cnpj" (.str ""))).getD ""),
   (optTruthy (strOrNone (rowGet row "fornecedor_telefone" (.str "")))
      && !pyTruthyPair (validar_telefone
           ((strOrNone (rowGet row "fornecedor_telefone" (.str ""))).getD "")),
      "Telefone inválido: " ++ (strOrNone (rowGet row "fornecedor_telefone" (.str ""))).getD ""),
   (optTruthy (strOrNone (rowGet row "fornecedor_email" (.str "")))
      && !pyTruthyPair (validar_email
           ((strOrNone (rowGet row "fornecedor_email" (.str ""))).getD "")),
      "Email inválido: " ++ (strOrNone (rowGet row "fornecedor_email" (.str ""))).getD ""),
   (pyStrip (pyStr (rowGet row "setor_local" (.str ""))) = "",
      "Setor/Local é obrigatório"),
   (!(VALID_STATUS.contains (pyLower (pyStrip (pyStr (rowGet row "status" (.str "ativo")))))),
      "Status inválido: " ++ pyLower (pyStrip (pyStr (rowGet row "status" (.str "ativo"))))
        ++ ". Use: " ++ joinComma VALID_STATUS),
   (!(VALID_ESTADOS.contains
        (pyLower (pyStrip (pyStr (rowGet row "estado_conservacao" (.str "bom")))))),
      "Estado inválido: "
        ++ pyLower (pyStrip (pyStr (rowGet row "estado_conservacao" (.str "bom"))))
        ++ ". Use: " ++ joinComma VALID_ESTADOS)]

/-- The `PatrimonioImportRow` constructed at the end of `_validar_linha`
(reached only when no check fired).  The `getD` defaults on the date and
value are never reached: the corresponding checks have already eliminated
`Option.none`. -/
def montarLinha (row : RawRow) : PatrimonioImportRow :=
  { linha := row.linha
    nome := pyStrip (pyStr (rowGet row "nome" (.str "")))
    descricao := strOrNone (rowGet row "descricao" (.str ""))
    numero_serie := strOrNone (rowGet row "numero_serie" (.str ""))
    data_aquisicao := (parse_data (rowGet row "data_aquisicao" .none)).getD ⟨1, 1, 1⟩
    valor_compra := (parse_decimal (rowGet row "valor_compra" .none)).getD ⟨0, 0⟩
    quantidade := parse_int (rowGet row "quantidade" (.int 1))
    numero_nota := strOrNone (rowGet row "numero_nota" (.str ""))
    estado_conservacao := pyLower (pyStrip (pyStr (rowGet row "estado_conservacao" (.str "bom"))))
    categoria := pyStrip (pyStr (rowGet row "categoria" (.str "")))
    fornecedor_nome := pyStrip (pyStr (rowGet row "fornecedor_nome" (.str "")))
    fornecedor_cnpj := strOrNone (rowGet row "fornecedor_cnpj" (.str ""))
    fornecedor_telefone := strOrNone (rowGet row "fornecedor_telefone" (.str ""))
    fornecedor_email := strOrNone (rowGet row "fornecedor_email" (.str ""))
    fornecedor_inscricao := strOrNone (rowGet row "fornecedor_inscricao" (.str ""))
    fornecedor_contato := strOrNone (rowGet row "fornecedor_contato" (.str ""))
    fornecedor_observacoes := strOrNone (rowGet row "fornecedor_observacoes" (.str ""))
    setor_local := pyStrip (pyStr (rowGet row "setor_local" (.str "")))
    status := pyLower (pyStrip (pyStr (rowGet row "status" (.str "ativo")))) }

/-- `PatrimonioImporter._validar_linha`: raise the first failing check's
`ValueError` message, otherwise build the validated row. -/
def validar_linha (row : RawRow) : Except String PatrimonioImportRow :=
  match firstErro (checks row) with
  | some m => .error m
  | none => .ok (montarLinha row)

/-- One iteration of `validar_dados`: append either the validated row or its
`"Linha N: message"` error. -/
def validar_dados_step (acc : List PatrimonioImportRow × List String) (row : RawRow) :
    List PatrimonioImportRow × List String :=
  match validar_linha row with
  | .ok p => (acc.1 ++ [p], acc.2)
  | .error e => (acc.1, acc.2 ++ ["Linha " ++ toString row.linha ++ ": " ++ e])

/-- `PatrimonioImporter.validar_dados`: validate every raw row, collecting
the valid rows and one `"Linha N: message"` string per failing row. -/
def validar_dados (dados : List RawRow) : Bool × List PatrimonioImportRow × List String :=
  let r := dados.foldl validar_dados_step ([], [])
  (r.2.isEmpty, r.1, r.2)

/-! ## Spreadsheet readers (`_ler_excel`, `_ler_csv`)

The file/workbook layer (`openpyxl`, `csv`) is external; the readers are
embedded from the point where the source holds the header cells and the data
rows: Excel data arrives as rows of cell values (`PyVal`, `None` for an empty
cell), CSV data arrives as rows of strings keyed by the file's field names
(`Option String`, `None` for a missing trailing field, matching
`csv.DictReader`'s default `restval`). -/

/-- `PatrimonioImporter.REQUIRED_COLUMNS`. -/
def REQUIRED_COLUMNS : List String :=
  ["nome", "data_aquisicao", "valor_compra", "categoria", "fornecedor_nome",
   "setor_local", "status"]

/-- Cell-dictionary construction shared by both readers: later assignments
shadow earlier ones, which the association list realises by consing the
newest binding to the front. -/
def mkCells (pairs : List (String × PyVal)) : List (String × PyVal) :=
  pairs.foldl (fun d kv => kv :: d) []

/-- The `row_dict` built by `_ler_excel` for one Excel data row:
`row_dict[headers[i]] = row[i]` for every `i < len(headers)`. -/
def excelRawRow (idx : Nat) (headers : List String) (row : List PyVal) : RawRow :=
  ⟨idx, mkCells (headers.zip row)⟩

/-- Header normalization of `_ler_excel`: falsy header cells are skipped
(`if cell.value:`), the rest trimmed and lower-cased. -/
def excelHeaders (headerCells : List PyVal) : List String :=
  headerCells.filterMap fun c =>
    if pyTruthy c then some (pyLower (pyStrip (pyStr c))) else none

/-- `PatrimonioImporter._ler_excel`, from the loaded worksheet onward:
normalize the header cells, check the required columns, then keep every data
row with at least one truthy cell, tagged with its worksheet line number
(`enumerate(..., start=2)`). -/
def ler_excel (headerCells : List PyVal) (rows : List (List PyVal)) :
    Except String (List RawRow) :=
  let headers := excelHeaders headerCells
  if headers = [] then
    .error "Planilha vazia ou sem cabeçalho."
  else
    let missing := REQUIRED_COLUMNS.filter fun c => !(headers.contains c)
    if missing ≠ [] then
      .error ("Colunas obrigatórias faltando: " ++ joinComma missing)
    else
      let dados := rows.enum.filterMap fun p =>
        if p.2.any pyTruthy then some (excelRawRow (p.1 + 2) headers p.2) else none
      if dados = [] then
        .error "Nenhum dado encontrado na planilha."
      else
        .ok dados

/-- The `row_dict` built by `_ler_csv` for one CSV row: every key is
re-normalized and the string (or missing) value stored unchanged. -/
def csvRawRow (idx : Nat) (fieldnames : List String) (row : List (Option String)) : RawRow :=
  ⟨idx, mkCells ((fieldnames.zip row).map fun kv =>
    (pyLower (pyStrip kv.1), match kv.2 with | some s => PyVal.str s | none => PyVal.none))⟩

/-- Truthiness of one CSV cell (`None` or the empty string are falsy). -/
def csvCellTruthy (v : Option String) : Bool :=
  match v with
  | some s => s ≠ ""
  | none => false

/-- `PatrimonioImporter._ler_csv`, from the parsed `DictReader` onward. -/
def ler_csv (fieldnames : List String) (rows : List (List (Option String))) :
    Except String (List RawRow) :=
  let fns := fieldnames.map fun f => pyLower (pyStrip f)
  let missing := REQUIRED_COLUMNS.filter fun c => !(fns.contains c)
  if missing ≠ [] then
    .error ("Colunas obrigatórias faltando: " ++ joinComma missing)
  else
    let dados := rows.enum.filterMap fun p =>
      if p.2.any csvCellTruthy then some (csvRawRow (p.1 + 2) fieldnames p.2) else none
    if dados = [] then
      .error "Nenhum dado encontrado no CSV."
    else
      .ok dados

/-! ## The store and the run state of `importar` -/

/-- One row of the `fornecedores` table, with the columns the importer
touches.  `_garantir_fornecedor` drops `None` fields from its INSERT; the
`Option` fields embed that (an absent column reads back as `None`). -/
structure Fornecedor where
  id : Nat
  nome_fornecedor : String
  cnpj : Option String
  telefone : Option String
  email : Option String
  inscricao_estadual : Option String
  contato : Option String
  observacoes : Option String
deriving DecidableEq

/-- One row of the `patrimonios` table as inserted by `_criar_patrimonio`.
`float(linha.valor_compra)` is embedded as the exact decimal value. -/
structure Patrimonio where
  nome : String
  descricao : Option String
  numero_serie : Option String
  data_aquisicao : PyDate
  valor_compra : PyDecimal
  quantidade : Int
  numero_nota : Option String
  estado_conservacao : String
  id_categoria : Nat
  id_fornecedor : Nat
  id_setor_local : Nat
  status : String
deriving DecidableEq

/-- The relational store, with one auto-increment counter per table
(`cursor.lastrowid`). -/
structure Store where
  fornecedores : List Fornecedor
  setores : List (Nat × String)
  categorias : List (Nat × String)
  patrimonios : List Patrimonio
  nextFornId : Nat
  nextSetorId : Nat
  nextCatId : Nat
deriving DecidableEq

/-- A cache dictionary (`str → int`), most recent binding first. -/
abbrev Dict := List (String × Nat)

/-- Python dict assignment `d[k] = v`. -/
def dictInsert (d : Dict) (k : String) (v : Nat) : Dict :=
  (k, v) :: d

/-- Python dict lookup (`k in d` / `d[k]`): the most recent binding wins. -/
def dictFind (d : Dict) (k : String) : Option Nat :=
  match d.find? (fun kv => kv.1 = k) with
  | some kv => some kv.2
  | none => none

/-- The four INSERT call sites inside the per-row loop. -/
inductive Step where
  | forn
  | setor
  | cat
  | pat
deriving DecidableEq

/-- Oracle describing which database INSERTs raise: `fails idx step` is the
exception message (if any) raised by the `step` INSERT of the row at 1-based
position `idx`.  A failed INSERT is never committed and never reaches the
cache updates that follow it in the source. -/
structure FailPlan where
  fails : Nat → Step → Option String

/-- Oracle describing the three bulk reads of `_carregar_caches`; each may
raise instead of returning rows. -/
structure FetchPlan where
  fornFetch : Store → Except String (List Fornecedor)
  setorFetch : Store → Except String (List (Nat × String))
  catFetch : Store → Except String (List (Nat × String))

/-- The fetch oracle of a healthy database: each bulk read returns the
store's current table contents. -/
def okFetch : FetchPlan :=
  ⟨fun s => .ok s.fornecedores, fun s => .ok s.setores, fun s => .ok s.categorias⟩

/-- The failure oracle of a healthy database: no INSERT raises. -/
def noFail : FailPlan :=
  ⟨fun _ _ => none⟩

/-- Mutable state of one `importar` run: the store, the three instance
caches, and the counters accumulated by the loop. -/
structure RunState where
  store : Store
  fornCache : Dict
  setorCache : Dict
  catCache : Dict
  importados : Nat
  erros : List String
  fornecedores_criados : Nat
  setores_criados : Nat
  categorias_criadas : Nat
deriving DecidableEq

/-- `PatrimonioImporter._carregar_caches`: merge the three bulk reads into
the instance caches.  Each read is wrapped in `try/except: pass`, so a
failing read leaves that cache exactly as it was; nothing is ever cleared. -/
def carregar_caches (fp : FetchPlan) (store : Store) (fc sc cc : Dict) :
    Dict × Dict × Dict :=
  let fc' := match fp.fornFetch store with
    | .error _ => fc
    | .ok rows => rows.foldl (fun d f =>
        let d := dictInsert d (pyLower (pyStrip f.nome_fornecedor)) f.id
        if optTruthy f.cnpj then
          dictInsert d ("cnpj:" ++ pyStrip (f.cnpj.getD "")) f.id
        else d) fc
  let sc' := match fp.setorFetch store with
    | .error _ => sc
    | .ok rows => rows.foldl (fun d s => dictInsert d (pyLower (pyStrip s.2)) s.1) sc
  let cc' := match fp.catFetch store with
    | .error _ => cc
    | .ok rows => rows.foldl (fun d c => dictInsert d (pyLower (pyStrip c.2)) c.1) cc
  (fc', sc', cc')

/-- `PatrimonioImporter._garantir_fornecedor`: look the supplier up by
normalized name, then by tax id, and only on a double miss INSERT a new row
(which the `FailPlan` oracle may turn into an exception) and record it under
both cache keys. -/
def garantir_fornecedor (plan : FailPlan) (idx : Nat) (st : RunState)
    (linha : PatrimonioImportRow) : Except String (Nat × Bool × RunState) :=
  let nomeLower := pyLower (pyStrip linha.fornecedor_nome)
  match dictFind st.fornCache nomeLower with
  | some fid => .ok (fid, false, st)
  | none =>
    let byCnpj := if optTruthy linha.fornecedor_cnpj then
        dictFind st.fornCache ("cnpj:" ++ linha.fornecedor_cnpj.getD "")
      else none
    match byCnpj with
    | some fid => .ok (fid, false, st)
    | none =>
      match plan.fails idx .forn with
      | some m => .error m
      | none =>
        let fid := st.store.nextFornId
        let f : Fornecedor :=
          { id := fid
            nome_fornecedor := linha.fornecedor_nome
            cnpj := linha.fornecedor_cnpj
            telefone := linha.fornecedor_telefone
            email := linha.fornecedor_email
            inscricao_estadual := linha.fornecedor_inscricao
            contato := linha.fornecedor_contato
            observacoes := linha.fornecedor_observacoes }
        let store' := { st.store with
          fornecedores := st.store.fornecedores ++ [f]
          nextFornId := fid + 1 }
        let cache := dictInsert st.fornCache nomeLower fid
        let cache := if optTruthy linha.fornecedor_cnpj then
            dictInsert cache ("cnpj:" ++ linha.fornecedor_cnpj.getD "") fid
          else cache
        .ok (fid, true, { st with store := store', fornCache := cache })

/-- `PatrimonioImporter._garantir_setor`. -/
def garantir_setor (plan : FailPlan) (idx : Nat) (st : RunState)
    (nome_setor : String) : Except String (Nat × Bool × RunState) :=
  let nomeLower := pyLower (pyStrip nome_setor)
  match dictFind st.setorCache nomeLower with
  | some sid => .ok (sid, false, st)
  | none =>
    match plan.fails idx .setor with
    | some m => .error m
    | none =>
      let sid := st.store.nextSetorId
      let store' := { st.store with
        setores := st.store.setores ++ [(sid, nome_setor)]
        nextSetorId := sid + 1 }
      .ok (sid, true,
        { st with store := store', setorCache := dictInsert st.setorCache nomeLower sid })

/-- `PatrimonioImporter._garantir_categoria`. -/
def garantir_categoria (plan : FailPlan) (idx : Nat) (st : RunState)
    (nome_categoria : String) : Except String (Nat × Bool × RunState) :=
  let nomeLower := pyLower (pyStrip nome_categoria)
  match dictFind st.catCache nomeLower with
  | some cid => .ok (cid, false, st)
  | none =>
    match plan.fails idx .cat with
    | some m => .error m
    | none =>
      let cid := st.store.nextCatId
      let store' := { st.store with
        categorias := st.store.categorias ++ [(cid, nome_categoria)]
        nextCatId := cid + 1 }
      .ok (cid, true,
        { st with store := store', catCache := dictInsert st.catCache nomeLower cid })

/-- `PatrimonioImporter._criar_patrimonio`: INSERT the asset row. -/
def criar_patrimonio (plan : FailPlan) (idx : Nat) (st : RunState)
    (linha : PatrimonioImportRow) (fid sid cid : Nat) : Except String RunState :=
  match plan.fails idx .pat with
  | some m => .error m
  | none =>
    let p : Patrimonio :=
      { nome := linha.nome
        descricao := linha.descricao
        numero_serie := linha.numero_serie
        data_aquisicao := linha.data_aquisicao
        valor_compra := linha.valor_compra
        quantidade := linha.quantidade
        numero_nota := linha.numero_nota
        estado_conservacao := linha.estado_conservacao
        id_categoria := cid
        id_fornecedor := fid
        id_setor_local := sid
        status := linha.status }
    .ok { st with store := { st.store with patrimonios := st.store.patrimonios ++ [p] } }

/-- Append one `"Linha N: message"` entry, as the `except` clause of
`importar`'s loop does. -/
def addErro (st : RunState) (linha : PatrimonioImportRow) (m : String) : RunState :=
  { st with erros := st.erros ++ ["Linha " ++ toString linha.linha ++ ": " ++ m] }

/-- `if criado: fornecedores_criados += 1`. -/
def incFornCriados (c : Bool) (st : RunState) : RunState :=
  if c then { st with fornecedores_criados := st.fornecedores_criados + 1 } else st

/-- `if criado: setores_criados += 1`. -/
def incSetorCriados (c : Bool) (st : RunState) : RunState :=
  if c then { st with setores_criados := st.setores_criados + 1 } else st

/-- `if criado: categorias_criadas += 1`. -/
def incCatCriados (c : Bool) (st : RunState) : RunState :=
  if c then { st with categorias_criadas := st.categorias_criadas + 1 } else st

/-- The body of `importar`'s per-row `try` block: resolve supplier, sector
and category (counting creations), then write the asset.  Any exception is
caught, turned into one error entry, and leaves every effect already applied
by the earlier steps of the same row in place. -/
def importar_body (plan : FailPlan) (idx : Nat) (st : RunState)
    (linha : PatrimonioImportRow) : RunState :=
  match garantir_fornecedor plan idx st linha with
  | .error m => addErro st linha m
  | .ok (fid, criadoF, st1) =>
    let st1 := incFornCriados criadoF st1
    match garantir_setor plan idx st1 linha.setor_local with
    | .error m => addErro st1 linha m
    | .ok (sid, criadoS, st2) =>
      let st2 := incSetorCriados criadoS st2
      match garantir_categoria plan idx st2 linha.categoria with
      | .error m => addErro st2 linha m
      | .ok (cid, criadoC, st3) =>
        let st3 := incCatCriados criadoC st3
        match criar_patrimonio plan idx st3 linha fid sid cid with
        | .error m => addErro st3 linha m
        | .ok st4 => { st4 with importados := st4.importados + 1 }

/-- The per-row loop of `importar` (`enumerate(linhas, start=1)`). -/
def importar_loop (plan : FailPlan) (linhas : List PatrimonioImportRow) (idx : Nat)
    (st : RunState) : RunState :=
  match linhas with
  | [] => st
  | l :: rest => importar_loop plan rest (idx + 1) (importar_body plan idx st l)

/-- `ImportResult` dataclass. -/
structure ImportResult where
  sucesso : Bool
  total_linhas : Nat
  importados : Nat
  erros : List String
  fornecedores_criados : Nat
  setores_criados : Nat
  categorias_criadas : Nat
deriving DecidableEq

/-- The run state at the top of `importar`'s loop: counters reset, caches
merged from the store on top of the instance's current caches.  The instance
caches `fc`/`sc`/`cc` are whatever the `PatrimonioImporter` instance already
holds (empty on a fresh instance); they are passed in because the source
never clears them. -/
def initState (fp : FetchPlan) (store : Store) (fc sc cc : Dict) : RunState :=
  { store := store
    fornCache := (carregar_caches fp store fc sc cc).1
    setorCache := (carregar_caches fp store fc sc cc).2.1
    catCache := (carregar_caches fp store fc sc cc).2.2
    importados := 0
    erros := []
    fornecedores_criados := 0
    setores_criados := 0
    categorias_criadas := 0 }

/-- `PatrimonioImporter.importar`: reset the counters, merge the caches from
the store, run the loop, and package the `ImportResult`.  Returns the result
together with the final run state. -/
def importar (fp : FetchPlan) (plan : FailPlan) (store : Store) (fc sc cc : Dict)
    (linhas : List PatrimonioImportRow) : ImportResult × RunState :=
  ({ sucesso := (importar_loop plan linhas 1 (initState fp store fc sc cc)).erros.isEmpty
     total_linhas := linhas.length
     importados := (importar_loop plan linhas 1 (initState fp store fc sc cc)).importados
     erros := (importar_loop plan linhas 1 (initState fp store fc sc cc)).erros
     fornecedores_criados :=
       (importar_loop plan linhas 1 (initState fp store fc sc cc)).fornecedores_criados
     setores_criados := (importar_loop plan linhas 1 (initState fp store fc sc cc)).setores_criados
     categorias_criadas :=
       (importar_loop plan linhas 1 (initState fp store fc sc cc)).categorias_criadas },
   importar_loop plan linhas 1 (initState fp store fc sc cc))

/-! ## Helper notions and lemmas for the run-level proofs -/

/-- Python `k in d` on a cache dictionary. -/
def dictContains (d : Dict) (k : String) : Bool :=
  (dictFind d k).isSome

/-- Number of supplier rows in the store whose normalized (stripped,
lower-cased) name is `n`. -/
def countForn (n : String) (s : Store) : Nat :=
  s.fornecedores.countP fun f => pyLower (pyStrip f.nome_fornecedor) = n

theorem dictFind_insert (d : Dict) (k : String) (v : Nat) (n : String) :
    dictFind (dictInsert d k v) n = if k = n then some v else dictFind d n := by
  by_cases h : k = n <;> simp [dictInsert, dictFind, List.find?_cons, h]

theorem dictContains_insert (d : Dict) (k : String) (v : Nat) (n : String) :
    dictContains (dictInsert d k v) n = (decide (k = n) || dictContains d n) := by
  by_cases h : k = n <;> simp [dictContains, dictFind_insert, h]

theorem countForn_append (n : String) (s : Store) (fs : List Fornecedor) :
    (s.fornecedores ++ fs).countP (fun f => pyLower (pyStrip f.nome_fornecedor) = n)
      = countForn n s + fs.countP (fun f => pyLower (pyStrip f.nome_fornecedor) = n) := by
  simp [countForn, List.countP_append]

/-- Everything `_garantir_fornecedor` leaves untouched, plus how the supplier
table, the supplier cache and the name counts can change. -/
theorem gf_ok_facts (plan : FailPlan) (idx : Nat) (st : RunState)
    (linha : PatrimonioImportRow) (fid : Nat) (c : Bool) (st1 : RunState) (n : String)
    (h : garantir_fornecedor plan idx st linha = .ok (fid, c, st1)) :
    st1.erros = st.erros ∧ st1.importados = st.importados ∧
    st1.store.patrimonios = st.store.patrimonios ∧
    st1.setorCache = st.setorCache ∧ st1.catCache = st.catCache ∧
    st1.store.setores = st.store.setores ∧ st1.store.categorias = st.store.categorias ∧
    st1.fornecedores_criados = st.fornecedores_criados ∧
    st1.setores_criados = st.setores_criados ∧
    st1.categorias_criadas = st.categorias_criadas ∧
    st1.store.fornecedores.length = st.store.fornecedores.length + (if c then 1 else 0) ∧
    (dictContains st.fornCache n = true →
      dictContains st1.fornCache n = true ∧ countForn n st1.store = countForn n st.store) ∧
    countForn n st1.store ≤ countForn n st.store + 1 ∧
    (countForn n st1.store ≠ countForn n st.store → dictContains st1.fornCache n = true) := by
  simp only [garantir_fornecedor] at h
  split at h
  · rename_i heq
    simp only [Except.ok.injEq, Prod.mk.injEq] at h
    obtain ⟨h1, h2, h3⟩ := h
    subst h2 h3
    simp
  · rename_i hmiss
    split at h
    · rename_i heq
      simp only [Except.ok.injEq, Prod.mk.injEq] at h
      obtain ⟨h1, h2, h3⟩ := h
      subst h2 h3
      simp
    · rename_i hmiss2
      split at h
      · exact absurd h (by simp)
      · rename_i hplan
        simp only [Except.ok.injEq, Prod.mk.injEq] at h
        obtain ⟨h1, h2, h3⟩ := h
        subst h2 h3
        refine ⟨rfl, rfl, rfl, rfl, rfl, rfl, rfl, rfl, rfl, rfl, by simp, ?_, ?_, ?_⟩
        · intro hc
          constructor
          · by_cases hcn : optTruthy linha.fornecedor_cnpj <;>
              simp [hcn, dictContains_insert, hc]
          · by_cases hn : pyLower (pyStrip linha.fornecedor_nome) = n
            · exfalso
              rw [hn] at hmiss
              simp [dictContains, hmiss] at hc
            · simp [countForn, countForn_append, List.countP_cons, hn]
        · by_cases hn : pyLower (pyStrip linha.fornecedor_nome) = n <;>
            simp [countForn, countForn_append, List.countP_cons, hn]
        · intro hne
          by_cases hn : pyLower (pyStrip linha.fornecedor_nome) = n
          · by_cases hcn : optTruthy linha.fornecedor_cnpj <;>
              simp [hcn, dictContains_insert, hn]
          · exfalso
            apply hne
            simp [countForn, countForn_append, List.countP_cons, hn]

/-- Everything `_garantir_setor` leaves untouched. -/
theorem gs_ok_facts (plan : FailPlan) (idx : Nat) (st : RunState)
    (nome_setor : String) (sid : Nat) (c : Bool) (st1 : RunState)
    (h : garantir_setor plan idx st nome_setor = .ok (sid, c, st1)) :
    st1.erros = st.erros ∧ st1.importados = st.importados ∧
    st1.store.patrimonios = st.store.patrimonios ∧
    st1.fornCache = st.fornCache ∧ st1.store.fornecedores = st.store.fornecedores ∧
    st1.fornecedores_criados = st.fornecedores_criados ∧
    st1.categorias_criadas = st.categorias_criadas := by
  simp only [garantir_setor] at h
  split at h
  · simp only [Except.ok.injEq, Prod.mk.injEq] at h
    obtain ⟨h1, h2, h3⟩ := h
    subst h2 h3
    simp
  · split at h
    · exact absurd h (by simp)
    · simp only [Except.ok.injEq, Prod.mk.injEq] at h
      obtain ⟨h1, h2, h3⟩ := h
      subst h2 h3
      simp

/-- Everything `_garantir_categoria` leaves untouched. -/
theorem gc_ok_facts (plan : FailPlan) (idx : Nat) (st : RunState)
    (nome_categoria : String) (cid : Nat) (c : Bool) (st1 : RunState)
    (h : garantir_categoria plan idx st nome_categoria = .ok (cid, c, st1)) :
    st1.erros = st.erros ∧ st1.importados = st.importados ∧
    st1.store.patrimonios = st.store.patrimonios ∧
    st1.fornCache = st.fornCache ∧ st1.store.fornecedores = st.store.fornecedores ∧
    st1.fornecedores_criados = st.fornecedores_criados ∧
    st1.setores_criados = st.setores_criados := by
  simp only [garantir_categoria] at h
  split at h
  · simp only [Except.ok.injEq, Prod.mk.injEq] at h
    obtain ⟨h1, h2, h3⟩ := h
    subst h2 h3
    simp
  · split at h
    · exact absurd h (by simp)
    · simp only [Except.ok.injEq, Prod.mk.injEq] at h
      obtain ⟨h1, h2, h3⟩ := h
      subst h2 h3
      simp

/-- Effect of a successful `_criar_patrimonio`. -/
theorem cp_ok_facts (plan : FailPlan) (idx : Nat) (st : RunState)
    (linha : PatrimonioImportRow) (fid sid cid : Nat) (st1 : RunState)
    (h : criar_patrimonio plan idx st linha fid sid cid = .ok st1) :
    st1.erros = st.erros ∧ st1.importados = st.importados ∧
    st1.store.patrimonios.length = st.store.patrimonios.length + 1 ∧
    st1.fornCache = st.fornCache ∧ st1.store.fornecedores = st.store.fornecedores ∧
    st1.fornecedores_criados = st.fornecedores_criados ∧
    st1.setores_criados = st.setores_criados ∧
    st1.categorias_criadas = st.categorias_criadas := by
  simp only [criar_patrimonio] at h
  split at h
  · exact absurd h (by simp)
  · simp only [Except.ok.injEq] at h
    subst h
    simp

/-- The counter wrappers change nothing but their own counter. -/
theorem incFornCriados_facts (c : Bool) (st : RunState) :
    (incFornCriados c st).erros = st.erros ∧
    (incFornCriados c st).importados = st.importados ∧
    (incFornCriados c st).store = st.store ∧
    (incFornCriados c st).fornCache = st.fornCache ∧
    (incFornCriados c st).setorCache = st.setorCache ∧
    (incFornCriados c st).catCache = st.catCache ∧
    (incFornCriados c st).setores_criados = st.setores_criados ∧
    (incFornCriados c st).categorias_criadas = st.categorias_criadas ∧
    (incFornCriados c st).fornecedores_criados
      = st.fornecedores_criados + (if c then 1 else 0) := by
  cases c <;> simp [incFornCriados]

theorem incSetorCriados_facts (c : Bool) (st : RunState) :
    (incSetorCriados c st).erros = st.erros ∧
    (incSetorCriados c st).importados = st.importados ∧
    (incSetorCriados c st).store = st.store ∧
    (incSetorCriados c st).fornCache = st.fornCache ∧
    (incSetorCriados c st).fornecedores_criados = st.fornecedores_criados ∧
    (incSetorCriados c st).categorias_criadas = st.categorias_criadas := by
  cases c <;> simp [incSetorCriados]

theorem incCatCriados_facts (c : Bool) (st : RunState) :
    (incCatCriados c st).erros = st.erros ∧
    (incCatCriados c st).importados = st.importados ∧
    (incCatCriados c st).store = st.store ∧
    (incCatCriados c st).fornCache = st.fornCache ∧
    (incCatCriados c st).fornecedores_criados = st.fornecedores_criados ∧
    (incCatCriados c st).setores_criados = st.setores_criados := by
  cases c <;> simp [incCatCriados]

/-- Error-isolation shape of one loop iteration: the body either succeeds —
errors untouched, `importados` and the asset table up by one — or catches
the row's exception, appending exactly one `"Linha N: message"` entry and
writing no asset, while never escaping the loop. -/
theorem importar_body_facts (plan : FailPlan) (idx : Nat) (st : RunState)
    (linha : PatrimonioImportRow) :
    ((importar_body plan idx st linha).erros = st.erros ∧
       (importar_body plan idx st linha).importados = st.importados + 1 ∧
       (importar_body plan idx st linha).store.patrimonios.length
         = st.store.patrimonios.length + 1) ∨
    (∃ m, (importar_body plan idx st linha).erros
         = st.erros ++ ["Linha " ++ toString linha.linha ++ ": " ++ m] ∧
       (importar_body plan idx st linha).importados = st.importados ∧
       (importar_body plan idx st linha).store.patrimonios.length
         = st.store.patrimonios.length) := by
  rcases hgf : garantir_fornecedor plan idx st linha with m | ⟨fid, criadoF, st1⟩
  · right
    exact ⟨m, by simp [importar_body, hgf, addErro]⟩
  · obtain ⟨hf1, hf2, hf3, -, -, -, -, -, -, -, -, -, -, -⟩ :=
      gf_ok_facts plan idx st linha fid criadoF st1 "" hgf
    obtain ⟨hi1, hi2, hi3, -, -, -, -, -, -⟩ := incFornCriados_facts criadoF st1
    rcases hgs : garantir_setor plan idx (incFornCriados criadoF st1) linha.setor_local with
      m | ⟨sid, criadoS, st2⟩
    · right
      refine ⟨m, ?_, ?_, ?_⟩ <;> simp [importar_body, hgf, hgs, addErro, hi1, hi2, hi3,
        hf1, hf2, hf3]
    · obtain ⟨hs1, hs2, hs3, -, -, -, -⟩ :=
        gs_ok_facts plan idx _ linha.setor_local sid criadoS st2 hgs
      obtain ⟨hj1, hj2, hj3, -, -, -⟩ := incSetorCriados_facts criadoS st2
      rcases hgc : garantir_categoria plan idx (incSetorCriados criadoS st2) linha.categoria with
        m | ⟨cid, criadoC, st3⟩
      · right
        refine ⟨m, ?_, ?_, ?_⟩ <;> simp [importar_body, hgf, hgs, hgc, addErro,
          hi1, hi2, hi3, hf1, hf2, hf3, hs1, hs2, hs3, hj1, hj2, hj3]
      · obtain ⟨hc1, hc2, hc3, -, -, -, -⟩ :=
          gc_ok_facts plan idx _ linha.categoria cid criadoC st3 hgc
        obtain ⟨hk1, hk2, hk3, -, -, -⟩ := incCatCriados_facts criadoC st3
        rcases hcp : criar_patrimonio plan idx (incCatCriados criadoC st3) linha fid sid cid with
          m | st4
        · right
          refine ⟨m, ?_, ?_, ?_⟩ <;> simp [importar_body, hgf, hgs, hgc, hcp, addErro,
            hi1, hi2, hi3, hf1, hf2, hf3, hs1, hs2, hs3, hj1, hj2, hj3, hc1, hc2, hc3,
            hk1, hk2, hk3]
        · obtain ⟨hp1, hp2, hp3, -, -, -, -, -⟩ :=
            cp_ok_facts plan idx _ linha fid sid cid st4 hcp
          left
          refine ⟨?_, ?_, ?_⟩ <;> simp [importar_body, hgf, hgs, hgc, hcp,
            hi1, hi2, hi3, hf1, hf2, hf3, hs1, hs2, hs3, hj1, hj2, hj3, hc1, hc2, hc3,
            hk1, hk2, hk3, hp1, hp2, hp3]

/-- Supplier-table bookkeeping of one loop iteration: a name already cached
stays cached with no further row for it, at most one supplier row per name
is added, a new row for a name puts that name into the cache, and the
`fornecedores_criados` counter moves in lockstep with the supplier table. -/
theorem importar_body_forn (plan : FailPlan) (idx : Nat) (st : RunState)
    (linha : PatrimonioImportRow) (n : String) :
    (dictContains st.fornCache n = true →
       dictContains (importar_body plan idx st linha).fornCache n = true ∧
       countForn n (importar_body plan idx st linha).store = countForn n st.store) ∧
    countForn n (importar_body plan idx st linha).store ≤ countForn n st.store + 1 ∧
    (countForn n (importar_body plan idx st linha).store ≠ countForn n st.store →
       dictContains (importar_body plan idx st linha).fornCache n = true) ∧
    (importar_body plan idx st linha).fornecedores_criados + st.store.fornecedores.length
      = st.fornecedores_criados + (importar_body plan idx st linha).store.fornecedores.length := by
  rcases hgf : garantir_fornecedor plan idx st linha with m | ⟨fid, criadoF, st1⟩
  · simp [importar_body, hgf, addErro, countForn]
  · obtain ⟨-, -, -, -, -, -, -, hfc, -, -, hlen, hcont, hle, hne⟩ :=
      gf_ok_facts plan idx st linha fid criadoF st1 n hgf
    obtain ⟨-, -, hi3, hi4, -, -, -, -, hi9⟩ := incFornCriados_facts criadoF st1
    have hbody : ∀ st' : RunState, st'.fornCache = (incFornCriados criadoF st1).fornCache →
        st'.store.fornecedores = (incFornCriados criadoF st1).store.fornecedores →
        st'.fornecedores_criados = (incFornCriados criadoF st1).fornecedores_criados →
        (dictContains st.fornCache n = true →
          dictContains st'.fornCache n = true ∧
          countForn n st'.store = countForn n st.store) ∧
        countForn n st'.store ≤ countForn n st.store + 1 ∧
        (countForn n st'.store ≠ countForn n st.store →
          dictContains st'.fornCache n = true) ∧
        st'.fornecedores_criados + st.store.fornecedores.length
          = st.fornecedores_criados + st'.store.fornecedores.length := by
      intro st' e1 e2 e3
      have hcount : countForn n st'.store = countForn n st1.store := by
        simp [countForn, e2, hi3]
      refine ⟨?_, ?_, ?_, ?_⟩
      · intro hc
        obtain ⟨hca, hcb⟩ := hcont hc
        exact ⟨by simp [e1, hi4, hca], by simp [hcount, hcb]⟩
      · simpa [hcount] using hle
      · intro hd
        rw [hcount] at hd
        simpa [e1, hi4] using hne hd
      · have : st'.store.fornecedores.length = st1.store.fornecedores.length := by
          simp [e2, hi3]
        rw [e3, hi9, this, hlen, hfc]
        cases criadoF <;> simp
        omega
    rcases hgs : garantir_setor plan idx (incFornCriados criadoF st1) linha.setor_local with
      m | ⟨sid, criadoS, st2⟩
    · have := hbody (addErro (incFornCriados criadoF st1) linha m) (by simp [addErro])
        (by simp [addErro]) (by simp [addErro])
      simpa [importar_body, hgf, hgs] using this
    · obtain ⟨-, -, -, hs4, hs5, hs6, -⟩ :=
        gs_ok_facts plan idx _ linha.setor_local sid criadoS st2 hgs
      obtain ⟨-, -, hj3, hj4, hj5, -⟩ := incSetorCriados_facts criadoS st2
      rcases hgc : garantir_categoria plan idx (incSetorCriados criadoS st2) linha.categoria with
        m | ⟨cid, criadoC, st3⟩
      · have := hbody (addErro (incSetorCriados criadoS st2) linha m)
          (by simp [addErro, hj4, hs4]) (by simp [addErro, hj3, hs5])
          (by simp [addErro, hj5, hs6])
        simpa [importar_body, hgf, hgs, hgc] using this
      · obtain ⟨-, -, -, hc4, hc5, hc6, -⟩ :=
          gc_ok_facts plan idx _ linha.categoria cid criadoC st3 hgc
        obtain ⟨-, -, hk3, hk4, hk5, -⟩ := incCatCriados_facts criadoC st3
        rcases hcp : criar_patrimonio plan idx (incCatCriados criadoC st3) linha fid sid cid with
          m | st4
        · have := hbody (addErro (incCatCriados criadoC st3) linha m)
            (by simp [addErro, hk4, hc4, hj4, hs4]) (by simp [addErro, hk3, hc5, hj3, hs5])
            (by simp [addErro, hk5, hc6, hj5, hs6])
          simpa [importar_body, hgf, hgs, hgc, hcp] using this
        · obtain ⟨-, -, -, hp4, hp5, hp6, -, -⟩ :=
            cp_ok_facts plan idx _ linha fid sid cid st4 hcp
          have := hbody { st4 with importados := st4.importados + 1 }
            (by simp [hp4, hk4, hc4, hj4, hs4]) (by simp [hp5, hk3, hc5, hj3, hs5])
            (by simp [hp6, hk5, hc6, hj5, hs6])
          simpa [importar_body, hgf, hgs, hgc, hcp] using this

/-- Across the whole loop, `importados` rises exactly with the number of
asset rows added to the store. -/
theorem importar_loop_pat (plan : FailPlan) (linhas : List PatrimonioImportRow) :
    ∀ (idx : Nat) (st : RunState),
      (importar_loop plan linhas idx st).importados + st.store.patrimonios.length
        = st.importados + (importar_loop plan linhas idx st).store.patrimonios.length := by
  induction linhas with
  | nil => intro idx st; simp [importar_loop]
  | cons l rest ih =>
    intro idx st
    have hrec := ih (idx + 1) (importar_body plan idx st l)
    simp only [importar_loop]
    rcases importar_body_facts plan idx st l with ⟨-, h2, h3⟩ | ⟨m, -, h2, h3⟩ <;> omega

/-- Once a supplier name is in the cache, the rest of the loop adds no
supplier row with that name. -/
theorem importar_loop_contains (plan : FailPlan) (linhas : List PatrimonioImportRow)
    (n : String) : ∀ (idx : Nat) (st : RunState),
      dictContains st.fornCache n = true →
      dictContains (importar_loop plan linhas idx st).fornCache n = true ∧
      countForn n (importar_loop plan linhas idx st).store = countForn n st.store := by
  induction linhas with
  | nil => intro idx st h; simpa [importar_loop] using h
  | cons l rest ih =>
    intro idx st h
    obtain ⟨hcont, -, -, -⟩ := importar_body_forn plan idx st l n
    obtain ⟨h1, h2⟩ := hcont h
    obtain ⟨h3, h4⟩ := ih (idx + 1) (importar_body plan idx st l) h1
    exact ⟨by simpa [importar_loop] using h3, by simp only [importar_loop]; omega⟩

/-- Across the whole loop, at most one supplier row per normalized name is
added to the store. -/
theorem importar_loop_count_le (plan : FailPlan) (linhas : List PatrimonioImportRow)
    (n : String) : ∀ (idx : Nat) (st : RunState),
      countForn n (importar_loop plan linhas idx st).store ≤ countForn n st.store + 1 := by
  induction linhas with
  | nil => intro idx st; simp [importar_loop]
  | cons l rest ih =>
    intro idx st
    obtain ⟨-, hle, hne, -⟩ := importar_body_forn plan idx st l n
    by_cases hc : countForn n (importar_body plan idx st l).store = countForn n st.store
    · have := ih (idx + 1) (importar_body plan idx st l)
      simp only [importar_loop]
      omega
    · obtain ⟨-, h4⟩ := importar_loop_contains plan rest n (idx + 1)
        (importar_body plan idx st l) (hne hc)
      simp only [importar_loop]
      omega

/-- Across the whole loop, `fornecedores_criados` rises exactly with the
number of supplier rows added to the store. -/
theorem importar_loop_criados (plan : FailPlan) (linhas : List PatrimonioImportRow) :
    ∀ (idx : Nat) (st : RunState),
      (importar_loop plan linhas idx st).fornecedores_criados + st.store.fornecedores.length
        = st.fornecedores_criados + (importar_loop plan linhas idx st).store.fornecedores.length := by
  induction linhas with
  | nil => intro idx st; simp [importar_loop]
  | cons l rest ih =>
    intro idx st
    have hrec := ih (idx + 1) (importar_body plan idx st l)
    obtain ⟨-, -, -, h4⟩ := importar_body_forn plan idx st l ""
    simp only [importar_loop]
    omega

/-- Inverting one check of `firstErro`. -/
theorem firstErro_none_cons {b : Bool} {m : String} {rest : List (Bool × String)}
    (h : firstErro ((b, m) :: rest) = none) : b = false ∧ firstErro rest = none := by
  cases b
  · exact ⟨rfl, by simpa [firstErro] using h⟩
  · simp [firstErro] at h

/-- Inversion of a successful `_validar_linha`: the accepted row is the one
built from the raw row, its quantity is the parsed value and is positive,
its purchase value is the parsed decimal and is non-negative, and its status
is the normalized cell value and belongs to `VALID_STATUS`. -/
theorem validar_linha_ok_inv (row : RawRow) (p : PatrimonioImportRow)
    (h : validar_linha row = .ok p) :
    p = montarLinha row ∧
    p.quantidade = parse_int (rowGet row "quantidade" (.int 1)) ∧
    1 ≤ p.quantidade ∧
    parse_decimal (rowGet row "valor_compra" .none) = some p.valor_compra ∧
    0 ≤ p.valor_compra.man ∧
    p.status = pyLower (pyStrip (pyStr (rowGet row "status" (.str "ativo")))) ∧
    p.status ∈ VALID_STATUS := by
  unfold validar_linha at h
  split at h
  · exact Except.noConfusion h
  · rename_i hfe
    injection h with hp
    subst hp
    unfold checks at hfe
    obtain ⟨hb1, hfe⟩ := firstErro_none_cons hfe
    obtain ⟨hb2, hfe⟩ := firstErro_none_cons hfe
    obtain ⟨hb3, hfe⟩ := firstErro_none_cons hfe
    obtain ⟨hb4, hfe⟩ := firstErro_none_cons hfe
    obtain ⟨hb5, hfe⟩ := firstErro_none_cons hfe
    obtain ⟨hb6, hfe⟩ := firstErro_none_cons hfe
    obtain ⟨hb7, hfe⟩ := firstErro_none_cons hfe
    obtain ⟨hb8, hfe⟩ := firstErro_none_cons hfe
    obtain ⟨hb9, hfe⟩ := firstErro_none_cons hfe
    obtain ⟨hb10, hfe⟩ := firstErro_none_cons hfe
    obtain ⟨hb11, hfe⟩ := firstErro_none_cons hfe
    obtain ⟨hb12, hfe⟩ := firstErro_none_cons hfe
    obtain ⟨hb13, hfe⟩ := firstErro_none_cons hfe
    refine ⟨rfl, rfl, ?_, ?_, ?_, rfl, ?_⟩
    · have e : (montarLinha row).quantidade = parse_int (rowGet row "quantidade" (.int 1)) := rfl
      rw [e]
      simp at hb5
      omega
    · have e : (montarLinha row).valor_compra
          = (parse_decimal (rowGet row "valor_compra" .none)).getD ⟨0, 0⟩ := rfl
      rw [e]
      cases hv : parse_decimal (rowGet row "valor_compra" PyVal.none) with
      | none => rw [hv] at hb3; simp at hb3
      | some v => simp [hv]
    · have e : (montarLinha row).valor_compra
          = (parse_decimal (rowGet row "valor_compra" .none)).getD ⟨0, 0⟩ := rfl
      rw [e]
      simp at hb4
      omega
    · have e : (montarLinha row).status
          = pyLower (pyStrip (pyStr (rowGet row "status" (.str "ativo")))) := rfl
      rw [e]
      simp only [Bool.not_eq_false'] at hb12
      simpa [List.elem_iff] using hb12

/-- Which rows `_ler_excel` returns: exactly the data rows with at least one
truthy cell, tagged `index + 2` and packed through `excelRawRow`. -/
theorem ler_excel_ok_mem (headerCells : List PyVal) (rows : List (List PyVal))
    (dados : List RawRow) (r : RawRow) (h : ler_excel headerCells rows = .ok dados) :
    r ∈ dados ↔ ∃ i row, rows[i]? = some row ∧ row.any pyTruthy = true ∧
      r = excelRawRow (i + 2) (excelHeaders headerCells) row := by
  simp only [ler_excel] at h
  split at h
  · exact Except.noConfusion h
  · split at h
    · exact Except.noConfusion h
    · split at h
      · exact Except.noConfusion h
      · injection h with hd
        subst hd
        simp only [List.mem_filterMap, List.mem_enum_iff_getElem?]
        constructor
        · rintro ⟨⟨i, row⟩, hget, hsome⟩
          split at hsome
          · rename_i hany
            injection hsome with hr
            exact ⟨i, row, hget, hany, hr.symm⟩
          · exact absurd hsome (by simp)
        · rintro ⟨i, row, hget, hany, rfl⟩
          exact ⟨(i, row), hget, by simp [hany]⟩

/-- Which rows `_ler_csv` returns: exactly the rows with at least one
non-empty, non-missing value, tagged `index + 2` and packed through
`csvRawRow`. -/
theorem ler_csv_ok_mem (fieldnames : List String) (rows : List (List (Option String)))
    (dados : List RawRow) (r : RawRow) (h : ler_csv fieldnames rows = .ok dados) :
    r ∈ dados ↔ ∃ i row, rows[i]? = some row ∧ row.any csvCellTruthy = true ∧
      r = csvRawRow (i + 2) fieldnames row := by
  simp only [ler_csv] at h
  split at h
  · exact Except.noConfusion h
  · split at h
    · exact Except.noConfusion h
    · injection h with hd
      subst hd
      simp only [List.mem_filterMap, List.mem_enum_iff_getElem?]
      constructor
      · rintro ⟨⟨i, row⟩, hget, hsome⟩
        split at hsome
        · rename_i hany
          injection hsome with hr
          exact ⟨i, row, hget, hany, hr.symm⟩
        · exact absurd hsome (by simp)
      · rintro ⟨i, row, hget, hany, rfl⟩
        exact ⟨(i, row), hget, by simp [hany]⟩

/-- Across the whole loop, at most one `importados` per row. -/
theorem importar_loop_importados_le (plan : FailPlan) (linhas : List PatrimonioImportRow) :
    ∀ (idx : Nat) (st : RunState),
      (importar_loop plan linhas idx st).importados ≤ st.importados + linhas.length := by
  induction linhas with
  | nil => intro idx st; simp [importar_loop]
  | cons l rest ih =>
    intro idx st
    have hrec := ih (idx + 1) (importar_body plan idx st l)
    simp only [importar_loop, List.length_cons]
    rcases importar_body_facts plan idx st l with ⟨-, h2, -⟩ | ⟨m, -, h2, -⟩ <;> omega

/-- Every row accepted into `validar_dados`'s valid list carries a status
from the fixed enumeration. -/
theorem validar_dados_status (dados : List RawRow) :
    ∀ p ∈ (validar_dados dados).2.1, p.status ∈ VALID_STATUS := by
  have key : ∀ (ds : List RawRow) (acc : List PatrimonioImportRow × List String),
      (∀ p ∈ acc.1, p.status ∈ VALID_STATUS) →
      ∀ p ∈ (ds.foldl validar_dados_step acc).1, p.status ∈ VALID_STATUS := by
    intro ds
    induction ds with
    | nil => intro acc hacc; simpa using hacc
    | cons row rest ih =>
      intro acc hacc
      simp only [List.foldl_cons]
      apply ih
      unfold validar_dados_step
      rcases hv : validar_linha row with m | q
      · simpa using hacc
      · intro p hp
        simp only [List.mem_append, List.mem_singleton] at hp
        rcases hp with hp | rfl
        · exact hacc p hp
        · exact (validar_linha_ok_inv row p hv).2.2.2.2.2.2
  intro p hp
  exact key dados ([], []) (by simp) p hp

/-! ## Cache-merge shape of `_carregar_caches` -/

/-- The bindings one supplier row contributes to the supplier cache (newest
first): its `cnpj:`-prefixed tax id when truthy, and its normalized name. -/
def fornBnd (f : Fornecedor) : Dict :=
  if optTruthy f.cnpj then
    [("cnpj:" ++ pyStrip (f.cnpj.getD ""), f.id), (pyLower (pyStrip f.nome_fornecedor), f.id)]
  else
    [(pyLower (pyStrip f.nome_fornecedor), f.id)]

/-- The binding one sector/category row contributes to its cache. -/
def nomeBnd (s : Nat × String) : Dict :=
  [(pyLower (pyStrip s.2), s.1)]

/-- Supplier cache freshly loaded from a supplier table. -/
def loadForn (rows : List Fornecedor) : Dict :=
  rows.foldl (fun d f => fornBnd f ++ d) []

/-- Name cache freshly loaded from a sector/category table. -/
def loadNome (rows : List (Nat × String)) : Dict :=
  rows.foldl (fun d s => nomeBnd s ++ d) []

/-- A fold that only prepends bindings factors through the empty
accumulator. -/
theorem foldl_bnd_acc {α : Type} (bnd : α → Dict) :
    ∀ (rows : List α) (acc : Dict),
      rows.foldl (fun d x => bnd x ++ d) acc
        = rows.foldl (fun d x => bnd x ++ d) [] ++ acc := by
  intro rows
  induction rows with
  | nil => intro acc; simp
  | cons r rs ih =>
    intro acc
    simp only [List.foldl_cons]
    rw [ih (bnd r ++ acc), ih (bnd r ++ [])]
    simp

/-- The supplier fold of `_carregar_caches` is the binding-prepending
fold. -/
theorem forn_step_eq : (fun (d : Dict) (f : Fornecedor) =>
      let d2 := dictInsert d (pyLower (pyStrip f.nome_fornecedor)) f.id
      if optTruthy f.cnpj then
        dictInsert d2 ("cnpj:" ++ pyStrip (f.cnpj.getD "")) f.id
      else d2)
    = fun d f => fornBnd f ++ d := by
  funext d f
  by_cases h : optTruthy f.cnpj <;> simp [fornBnd, dictInsert, h]

/-- The sector/category fold of `_carregar_caches` is the binding-prepending
fold. -/
theorem nome_step_eq : (fun (d : Dict) (s : Nat × String) =>
      dictInsert d (pyLower (pyStrip s.2)) s.1) = fun d s => nomeBnd s ++ d := by
  funext d s
  simp [nomeBnd, dictInsert]

/-! ## Concrete inputs used by the claim theorems -/

/-- The empty relational store. -/
def emptyStore : Store := ⟨[], [], [], [], 1, 1, 1⟩

/-- A validated row with the given line number, name, category, supplier and
sector (value 100, quantity 1, status `ativo`). -/
def mkLinha (n : Nat) (nome cat forn setor : String) : PatrimonioImportRow :=
  { linha := n
    nome := nome
    descricao := none
    numero_serie := none
    data_aquisicao := ⟨2024, 1, 1⟩
    valor_compra := ⟨100, 0⟩
    quantidade := 1
    numero_nota := none
    estado_conservacao := "bom"
    categoria := cat
    fornecedor_nome := forn
    fornecedor_cnpj := none
    fornecedor_telefone := none
    fornecedor_email := none
    setor_local := setor
    status := "ativo" }

/-- A raw row whose supplier tax id, phone and e-mail are all invalid
(`"123"` is not a 14-digit CNPJ, `"12"` has fewer than 10 digits,
`"semarroba"` has no `@`), every other field valid. -/
def c1row : RawRow :=
  ⟨2, [("nome", .str "Notebook"), ("data_aquisicao", .date ⟨2024, 1, 15⟩),
    ("valor_compra", .str "R$ 1.234,56"), ("categoria", .str "IT"),
    ("fornecedor_nome", .str "ACME"), ("fornecedor_cnpj", .str "123"),
    ("fornecedor_telefone", .str "12"), ("fornecedor_email", .str "semarroba"),
    ("setor_local", .str "HQ"), ("status", .str "ativo")]⟩

/-- A run state whose supplier cache already knows `acme ↦ 5`. -/
def c2state : RunState :=
  { store := emptyStore
    fornCache := [("acme", 5)]
    setorCache := []
    catCache := []
    importados := 0
    erros := []
    fornecedores_criados := 0
    setores_criados := 0
    categorias_criadas := 0 }

/-- Failure oracle for the partial-failure scenario: the category INSERT of
the second row raises. -/
def plan2cat : FailPlan :=
  ⟨fun idx s => if idx = 2 ∧ s = Step.cat then some "Falha ao criar categoria" else none⟩

/-- Three valid rows on lines 11–13; the middle one references a category of
its own, the outer two share everything. -/
def rows3 : List PatrimonioImportRow :=
  [mkLinha 11 "Notebook" "IT" "ACME" "HQ", mkLinha 12 "Mesa" "Moveis" "ACME" "HQ",
   mkLinha 13 "Impressora" "IT" "ACME" "HQ"]

/-- Raw row with an unparsable quantity cell. -/
def c5row : RawRow :=
  ⟨4, [("nome", .str "Mesa"), ("data_aquisicao", .date ⟨2024, 2, 1⟩),
    ("valor_compra", .int 50), ("quantidade", .str "abc"), ("categoria", .str "Moveis"),
    ("fornecedor_nome", .str "ACME"), ("setor_local", .str "HQ"), ("status", .str "ativo")]⟩

/-- Raw row with quantity 0. -/
def c5zero : RawRow :=
  ⟨6, [("nome", .str "Mesa"), ("data_aquisicao", .date ⟨2024, 2, 1⟩),
    ("valor_compra", .int 50), ("quantidade", .int 0), ("categoria", .str "Moveis"),
    ("fornecedor_nome", .str "ACME"), ("setor_local", .str "HQ"), ("status", .str "ativo")]⟩

/-- Raw row with no quantity cell at all. -/
def c5sem : RawRow :=
  ⟨8, [("nome", .str "Mesa"), ("data_aquisicao", .date ⟨2024, 2, 1⟩),
    ("valor_compra", .int 50), ("categoria", .str "Moveis"),
    ("fornecedor_nome", .str "ACME"), ("setor_local", .str "HQ"), ("status", .str "ativo")]⟩

/-- The seven required header cells. -/
def hdr7 : List PyVal :=
  [.str "nome", .str "data_aquisicao", .str "valor_compra", .str "categoria",
   .str "fornecedor_nome", .str "setor_local", .str "status"]

/-- Raw row whose purchase value carries the Brazilian currency format. -/
def c8row : RawRow :=
  ⟨2, [("nome", .str "Notebook"), ("data_aquisicao", .date ⟨2024, 1, 15⟩),
    ("valor_compra", .str "R$ 1.234,56"), ("categoria", .str "IT"),
    ("fornecedor_nome", .str "ACME"), ("setor_local", .str "HQ"), ("status", .str "ativo")]⟩

/-- Raw row with the out-of-enumeration status `pending`. -/
def c9row : RawRow :=
  ⟨7, [("nome", .str "Coisa"), ("data_aquisicao", .date ⟨2024, 1, 1⟩),
    ("valor_compra", .int 10), ("categoria", .str "IT"),
    ("fornecedor_nome", .str "ACME"), ("setor_local", .str "HQ"), ("status", .str "pending")]⟩

/-- A fully valid raw row (status spelled `Ativo`, normalized on accept). -/
def c9okrow : RawRow :=
  ⟨9, [("nome", .str "Coisa"), ("data_aquisicao", .date ⟨2024, 1, 1⟩),
    ("valor_compra", .int 10), ("categoria", .str "IT"),
    ("fornecedor_nome", .str "ACME"), ("setor_local", .str "HQ"), ("status", .str "Ativo")]⟩

/-- A store already holding the supplier `ACME` with id 7. -/
def acmeStore : Store :=
  ⟨[⟨7, "ACME", none, none, none, none, none, none⟩], [], [], [], 8, 1, 1⟩

/-- Fetch oracle whose supplier bulk read raises while the other two
succeed. -/
def fetchFail : FetchPlan :=
  ⟨fun _ => .error "db down", fun s => .ok s.setores, fun s => .ok s.categorias⟩

/-! ## Claim theorems -/

/-- Claim C1 (code bug): the claim says a row carrying an invalid CNPJ,
phone, or e-mail never yields an `ImportRow`.  The code disagrees: the
validators classify `"123"`, `"12"` and `"semarroba"` as invalid (first
components `false` — and the repository's own test suite expects these calls
to be falsy), yet `_validar_linha` accepts a row carrying all three, because
`not validar_x(...)` is applied to the returned `(bool, message)` tuple,
which is always truthy.  The accepted row retains the invalid values. -/
theorem c1_validadores_mortos :
    (validar_cnpj "123").1 = false ∧ (validar_telefone "12").1 = false ∧
    (validar_email "semarroba").1 = false ∧
    validar_linha c1row = .ok (montarLinha c1row) ∧
    (montarLinha c1row).fornecedor_cnpj = some "123" ∧
    (montarLinha c1row).fornecedor_telefone = some "12" ∧
    (montarLinha c1row).fornecedor_email = some "semarroba" := by
  refine ⟨by decide, by decide, by decide, by decide, by decide, by decide, by decide⟩

/-- Claim C2: resolving the same supplier row twice returns the same
identifier with `criado = false` and an unchanged state (no second INSERT,
no counter increment); across any full `importar` run at most one supplier
row per normalized name is added to the store; and `fornecedores_criados`
equals exactly the number of supplier rows the run added. -/
theorem c2_fornecedor_resolucao :
    (∀ (plan : FailPlan) (idx idx2 : Nat) (st : RunState) (linha : PatrimonioImportRow)
        (fid : Nat) (c : Bool) (st1 : RunState),
        garantir_fornecedor plan idx st linha = .ok (fid, c, st1) →
        garantir_fornecedor plan idx2 st1 linha = .ok (fid, false, st1)) ∧
    (∀ (fp : FetchPlan) (plan : FailPlan) (store : Store) (fc sc cc : Dict)
        (linhas : List PatrimonioImportRow) (n : String),
        countForn n (importar fp plan store fc sc cc linhas).2.store
          ≤ countForn n store + 1) ∧
    (∀ (fp : FetchPlan) (plan : FailPlan) (store : Store) (fc sc cc : Dict)
        (linhas : List PatrimonioImportRow),
        (importar fp plan store fc sc cc linhas).1.fornecedores_criados
            + store.fornecedores.length
          = (importar fp plan store fc sc cc linhas).2.store.fornecedores.length) := by
  refine ⟨?_, ?_, ?_⟩
  · intro plan idx idx2 st linha fid c st1 h
    simp only [garantir_fornecedor] at h ⊢
    split at h
    · rename_i heq
      simp only [Except.ok.injEq, Prod.mk.injEq] at h
      obtain ⟨h1, h2, h3⟩ := h
      subst h1 h3
      simp [heq]
    · rename_i hmiss
      split at h
      · rename_i heq
        simp only [Except.ok.injEq, Prod.mk.injEq] at h
        obtain ⟨h1, h2, h3⟩ := h
        subst h1 h3
        simp [hmiss, heq]
      · split at h
        · exact absurd h (by simp)
        · simp only [Except.ok.injEq, Prod.mk.injEq] at h
          obtain ⟨h1, h2, h3⟩ := h
          subst h1
          subst h3
          by_cases hc : optTruthy linha.fornecedor_cnpj
          · simp only [hc, if_true]
            by_cases hk : ("cnpj:" ++ linha.fornecedor_cnpj.getD "")
                = pyLower (pyStrip linha.fornecedor_nome)
            · simp [dictFind, dictInsert, List.find?, hk]
            · simp [dictFind, dictInsert, List.find?, hk]
          · simp [hc, dictFind, dictInsert, List.find?]
  · intro fp plan store fc sc cc linhas n
    have h := importar_loop_count_le plan linhas n 1 (initState fp store fc sc cc)
    simpa [importar, initState] using h
  · intro fp plan store fc sc cc linhas
    have h := importar_loop_criados plan linhas 1 (initState fp store fc sc cc)
    simpa [importar, initState] using h

/-- Witness for C2 at a concrete cached supplier. -/
theorem c2_fornecedor_resolucao_witness :
    garantir_fornecedor noFail 2 c2state (mkLinha 2 "X" "IT" "ACME" "HQ")
      = .ok (5, false, c2state) :=
  c2_fornecedor_resolucao.1 noFail 1 2 c2state (mkLinha 2 "X" "IT" "ACME" "HQ") 5 false c2state
    (by decide)

/-- Claim C3: one loop iteration either succeeds (errors untouched,
`importados` up by one) or appends exactly one `"Linha N: message"` entry
and leaves `importados` alone — and in the concrete 3-row scenario where row
2's category INSERT raises, the run reports `importados = 2` with the single
error naming line 12 while rows 11 and 13 get their assets written. -/
theorem c3_falha_isolada :
    (∀ (plan : FailPlan) (idx : Nat) (st : RunState) (linha : PatrimonioImportRow),
        ((importar_body plan idx st linha).erros = st.erros ∧
          (importar_body plan idx st linha).importados = st.importados + 1) ∨
        (∃ m, (importar_body plan idx st linha).erros
            = st.erros ++ ["Linha " ++ toString linha.linha ++ ": " ++ m] ∧
          (importar_body plan idx st linha).importados = st.importados)) ∧
    (importar okFetch plan2cat emptyStore [] [] [] rows3).1
      = { sucesso := false, total_linhas := 3, importados := 2,
          erros := ["Linha 12: Falha ao criar categoria"],
          fornecedores_criados := 1, setores_criados := 1, categorias_criadas := 1 } ∧
    ((importar okFetch plan2cat emptyStore [] [] [] rows3).2.store.patrimonios.map
        fun p => p.nome) = ["Notebook", "Impressora"] := by
  refine ⟨?_, by decide, by decide⟩
  intro plan idx st linha
  rcases importar_body_facts plan idx st linha with ⟨h1, h2, -⟩ | ⟨m, h1, h2, -⟩
  · exact Or.inl ⟨h1, h2⟩
  · exact Or.inr ⟨m, h1, h2⟩

/-- Counterexample to C4: an entry left in the instance's supplier cache by
a previous run is still there for the next `importar` call — with the stale
entry `ghost ↦ 99` and an empty store, importing a `Ghost` row creates no
supplier (the resolver trusts the stale identifier), while the same call on
a clean cache creates one.  The caches are not reset per run. -/
theorem c4_contraexemplo :
    (importar okFetch noFail emptyStore [("ghost", 99)] [] []
        [mkLinha 5 "Coisa" "IT" "Ghost" "HQ"]).1.fornecedores_criados = 0 ∧
    (importar okFetch noFail emptyStore [("ghost", 99)] [] []
        [mkLinha 5 "Coisa" "IT" "Ghost" "HQ"]).2.store.fornecedores = [] ∧
    (importar okFetch noFail emptyStore [] [] []
        [mkLinha 5 "Coisa" "IT" "Ghost" "HQ"]).1.fornecedores_criados = 1 := by
  refine ⟨by decide, by decide, by decide⟩

/-- Claim C4 as amended: `_carregar_caches` never clears the caches; each
successful bulk read is merged on top of whatever the instance caches
already hold, with the store's bindings taking lookup precedence, so entries
from a previous run persist. -/
theorem c4_caches_mesclados (fp : FetchPlan) (store : Store) (fc sc cc : Dict)
    (fornRows : List Fornecedor) (setorRows catRows : List (Nat × String))
    (h1 : fp.fornFetch store = .ok fornRows) (h2 : fp.setorFetch store = .ok setorRows)
    (h3 : fp.catFetch store = .ok catRows) :
    carregar_caches fp store fc sc cc
      = (loadForn fornRows ++ fc, loadNome setorRows ++ sc, loadNome catRows ++ cc) := by
  simp only [carregar_caches, h1, h2, h3]
  rw [forn_step_eq, nome_step_eq, foldl_bnd_acc fornBnd fornRows fc,
    foldl_bnd_acc nomeBnd setorRows sc, foldl_bnd_acc nomeBnd catRows cc]
  rfl

/-- Witness for the amended C4 at a concrete stale cache. -/
theorem c4_caches_mesclados_witness :
    carregar_caches okFetch acmeStore [("velho", 1)] [] []
      = (loadForn acmeStore.fornecedores ++ [("velho", 1)], [], []) :=
  c4_caches_mesclados okFetch acmeStore [("velho", 1)] [] [] acmeStore.fornecedores [] []
    rfl rfl rfl

/-- Counterexample to C5: a row whose quantity cell reads `"abc"` is not
rejected — `_parse_int`'s bare `except: return 1` silently replaces the
unparsable text with the default 1 and the row is accepted. -/
theorem c5_contraexemplo :
    validar_linha c5row = .ok (montarLinha c5row) ∧
    (montarLinha c5row).quantidade = 1 ∧
    parse_int (.str "abc") = 1 := by
  refine ⟨by decide, by decide, by decide⟩

/-- Claim C5 as amended: quantity is optional and defaults to 1 when absent;
a value parsing to an integer `≤ 0` is rejected (never clamped), and an
accepted row's quantity is exactly the parsed value, hence always `≥ 1`;
but a value `int()` cannot parse falls back to the default 1 instead of
rejecting the row. -/
theorem c5_quantidade (row : RawRow) (p : PatrimonioImportRow) :
    (validar_linha row = .ok p →
        p.quantidade = parse_int (rowGet row "quantidade" (.int 1)) ∧ 1 ≤ p.quantidade) ∧
    (parse_int (rowGet row "quantidade" (.int 1)) ≤ 0 → validar_linha row ≠ .ok p) ∧
    rowGet c5sem "quantidade" (.int 1) = .int 1 ∧
    (validar_linha c5sem).toOption.map (fun q => q.quantidade) = some 1 ∧
    validar_linha c5zero = .error "Quantidade deve ser maior que zero" := by
  refine ⟨?_, ?_, by decide, by decide, by decide⟩
  · intro h
    obtain ⟨-, e1, e2, -, -, -, -⟩ := validar_linha_ok_inv row p h
    exact ⟨e1, e2⟩
  · intro hle h
    obtain ⟨-, e1, e2, -, -, -, -⟩ := validar_linha_ok_inv row p h
    omega

/-- Witness for the amended C5 at the `"abc"`-quantity row. -/
theorem c5_quantidade_witness : 1 ≤ (montarLinha c5row).quantidade :=
  ((c5_quantidade c5row (montarLinha c5row)).1 (by decide)).2

/-- Counterexample to C6: the Excel reader's emptiness test is Python
truthiness (`not any(row)`), so a data row whose only cell holds the number
0 — a non-empty cell — is skipped: with rows `["Mesa"]` and `[0]`, only the
line-2 row is returned and no `RawRow` for line 3 exists. -/
theorem c6_contraexemplo :
    ler_excel hdr7 [[.str "Mesa"], [.int 0]] = .ok [⟨2, [("nome", .str "Mesa")]⟩] ∧
    pyTruthy (.int 0) = false ∧ PyVal.int 0 ≠ .none ∧ PyVal.int 0 ≠ .str "" := by
  refine ⟨by decide, by decide, by decide, by decide⟩

/-- Claim C6 as amended: the Excel reader returns exactly the data rows with
at least one truthy cell (so rows of zeros/empty strings are also skipped,
not only entirely empty ones), and the CSV reader exactly those with at
least one non-empty value; surviving rows are tagged with their original
line number, header = line 1, first data row = line 2. -/
theorem c6_linhas_puladas :
    (∀ (headerCells : List PyVal) (rows : List (List PyVal)) (dados : List RawRow) (r : RawRow),
        ler_excel headerCells rows = .ok dados →
        (r ∈ dados ↔ ∃ i row, rows[i]? = some row ∧ row.any pyTruthy = true ∧
          r = excelRawRow (i + 2) (excelHeaders headerCells) row)) ∧
    (∀ (fieldnames : List String) (rows : List (List (Option String))) (dados : List RawRow)
        (r : RawRow),
        ler_csv fieldnames rows = .ok dados →
        (r ∈ dados ↔ ∃ i row, rows[i]? = some row ∧ row.any csvCellTruthy = true ∧
          r = csvRawRow (i + 2) fieldnames row)) :=
  ⟨ler_excel_ok_mem, ler_csv_ok_mem⟩

/-- Witness for the amended C6: the surviving `"Mesa"` row of the
counterexample's sheet really is produced by the reader as line 2. -/
theorem c6_linhas_puladas_witness :
    (⟨2, [("nome", PyVal.str "Mesa")]⟩ : RawRow)
      ∈ [(⟨2, [("nome", PyVal.str "Mesa")]⟩ : RawRow)] :=
  (c6_linhas_puladas.1 hdr7 [[.str "Mesa"], [.int 0]] [⟨2, [("nome", .str "Mesa")]⟩]
      ⟨2, [("nome", .str "Mesa")]⟩ (by decide)).mpr
    ⟨0, [.str "Mesa"], by decide, by decide, by decide⟩

/-- Claim C7: the result of `importar` has `sucesso` true exactly when its
error list is empty, `total_linhas` is the full input length, `importados`
counts exactly the asset rows the run added to the store (and never exceeds
the input length), and the error list and the three created-entity counters
are those accumulated by the run regardless of failures. -/
theorem c7_resultado_completo (fp : FetchPlan) (plan : FailPlan) (store : Store)
    (fc sc cc : Dict) (linhas : List PatrimonioImportRow) :
    ((importar fp plan store fc sc cc linhas).1.sucesso = true ↔
      (importar fp plan store fc sc cc linhas).1.erros = []) ∧
    (importar fp plan store fc sc cc linhas).1.total_linhas = linhas.length ∧
    (importar fp plan store fc sc cc linhas).1.importados + store.patrimonios.length
      = (importar fp plan store fc sc cc linhas).2.store.patrimonios.length ∧
    (importar fp plan store fc sc cc linhas).1.importados ≤ linhas.length ∧
    (importar fp plan store fc sc cc linhas).1.erros
      = (importar fp plan store fc sc cc linhas).2.erros ∧
    (importar fp plan store fc sc cc linhas).1.fornecedores_criados
      = (importar fp plan store fc sc cc linhas).2.fornecedores_criados ∧
    (importar fp plan store fc sc cc linhas).1.setores_criados
      = (importar fp plan store fc sc cc linhas).2.setores_criados ∧
    (importar fp plan store fc sc cc linhas).1.categorias_criadas
      = (importar fp plan store fc sc cc linhas).2.categorias_criadas := by
  refine ⟨?_, rfl, ?_, ?_, rfl, rfl, rfl, rfl⟩
  · simp [importar, List.isEmpty_iff]
  · have h := importar_loop_pat plan linhas 1 (initState fp store fc sc cc)
    simpa [importar, initState] using h
  · have h := importar_loop_importados_le plan linhas 1 (initState fp store fc sc cc)
    simpa [importar, initState] using h

/-- Claim C8: an accepted row's purchase value is exactly the parsed decimal
and is non-negative; parsing strips the currency marker, spaces and `.`
thousands separators and turns `,` into `.`, so the raw value
`"R$ 1.234,56"` yields exactly `1234.56`. -/
theorem c8_valor_compra :
    (∀ (row : RawRow) (p : PatrimonioImportRow), validar_linha row = .ok p →
        parse_decimal (rowGet row "valor_compra" .none) = some p.valor_compra ∧
        0 ≤ p.valor_compra.toRat) ∧
    validar_linha c8row = .ok (montarLinha c8row) ∧
    (montarLinha c8row).valor_compra = ⟨123456, 2⟩ ∧
    PyDecimal.toRat ⟨123456, 2⟩ = 1234.56 ∧
    limparValor "R$ 1.234,56" = "1234.56" := by
  refine ⟨?_, by decide, by decide, ?_, by decide⟩
  · intro row p h
    obtain ⟨-, -, -, h4, h5, -, -⟩ := validar_linha_ok_inv row p h
    refine ⟨h4, ?_⟩
    unfold PyDecimal.toRat
    apply div_nonneg
    · exact_mod_cast h5
    · positivity
  · unfold PyDecimal.toRat
    norm_num

/-- Witness for C8 at the currency-formatted row. -/
theorem c8_valor_compra_witness : 0 ≤ (montarLinha c8row).valor_compra.toRat :=
  (c8_valor_compra.1 c8row (montarLinha c8row) (by decide)).2

/-- Claim C9: a row whose status is `pending` is rejected at validation with
the message listing the allowed values — it contributes no `ImportRow`, so
it can never reach entity resolution — and every row `validar_dados` does
accept carries a status from the fixed enumeration. -/
theorem c9_status_invalido :
    validar_dados [c9row] = (false, [],
      ["Linha 7: Status inválido: pending. Use: ativo, baixado, em_manutencao, desaparecido"]) ∧
    validar_linha c9row = .error
      "Status inválido: pending. Use: ativo, baixado, em_manutencao, desaparecido" ∧
    (∀ (dados : List RawRow), ∀ p ∈ (validar_dados dados).2.1, p.status ∈ VALID_STATUS) := by
  refine ⟨by decide, by decide, ?_⟩
  intro dados
  exact validar_dados_status dados

/-- Witness for C9 at a concrete accepted row. -/
theorem c9_status_invalido_witness : (montarLinha c9okrow).status ∈ VALID_STATUS :=
  c9_status_invalido.2.2 [c9okrow] (montarLinha c9okrow) (by decide)

/-- Claim C10: each of the three bulk reads of `_carregar_caches` is wrapped
in `try/except: pass`, so a failing read leaves that cache exactly as it was
(empty, on a fresh run) and the run proceeds — concretely, with the supplier
read failing over a store that already holds `ACME`, importing an `ACME` row
succeeds and INSERTs a duplicate `ACME` supplier. -/
theorem c10_priming_engole_erros :
    (∀ (fp : FetchPlan) (store : Store) (fc sc cc : Dict) (e : String),
        fp.fornFetch store = .error e → (carregar_caches fp store fc sc cc).1 = fc) ∧
    (∀ (fp : FetchPlan) (store : Store) (fc sc cc : Dict) (e : String),
        fp.setorFetch store = .error e → (carregar_caches fp store fc sc cc).2.1 = sc) ∧
    (∀ (fp : FetchPlan) (store : Store) (fc sc cc : Dict) (e : String),
        fp.catFetch store = .error e → (carregar_caches fp store fc sc cc).2.2 = cc) ∧
    (importar fetchFail noFail acmeStore [] [] [] [mkLinha 2 "X" "IT" "ACME" "HQ"]).1
      = { sucesso := true, total_linhas := 1, importados := 1, erros := [],
          fornecedores_criados := 1, setores_criados := 1, categorias_criadas := 1 } ∧
    ((importar fetchFail noFail acmeStore [] [] []
        [mkLinha 2 "X" "IT" "ACME" "HQ"]).2.store.fornecedores.map
          fun f => f.nome_fornecedor) = ["ACME", "ACME"] := by
  refine ⟨?_, ?_, ?_, by decide, by decide⟩
  all_goals intro fp store fc sc cc e h
  all_goals simp [carregar_caches, h]

/-- Witness for C10 at the failing supplier read. -/
theorem c10_priming_engole_erros_witness :
    (carregar_caches fetchFail acmeStore [] [] []).1 = [] :=
  c10_priming_engole_erros.1 fetchFail acmeStore [] [] [] "db down" rfl

end Patp
